import Mathlib

/-!
# Verification of the rust-libretro dispatch bridge (`src/rust-libretro/src/lib.rs`)

Shallow embedding of the dispatch layer of the `rust-libretro` crate.
The crate exposes the libretro C ABI entry points (`retro_init`, `retro_run`,
`retro_load_game`, the callback setters, ...), holds a single process-wide
`Option<CoreWrapper>` slot (`RETRO_INSTANCE`), and forwards each entry point
to the user-supplied `Core` implementation.

Modelling choices:
* A C pointer is a `CPtr` (a bare address); the null pointer has address 0.
  The optional callback pointer types of the ABI (`retro_environment_t`,
  `retro_audio_sample_t`, ...) are `Option CPtr`.
* A Rust `panic!` is `Except.error msg`; a normal return is `Except.ok`.
* Each entry point is a function from its arguments and the global state
  (`LibState`, holding `RETRO_INSTANCE` and the `SYS_INFO` static of
  `retro_get_system_info`) to
  `Except String (result × LibState × List Event)`, where the `Event` list
  records, in order, the invocations of the `Core`'s hooks and of
  host-supplied callbacks performed by the entry point.
* The user `Core` is opaque: it is a structure of result values/functions,
  one per hook the dispatch layer calls; invoking a hook is recorded as an
  `Event`.
* The `environment` module (host environment queries such as
  `get_variable_update`, `can_dupe`, `get_input_bitmasks`) is not under
  `src/`; what the host reports is passed in as an explicit boolean argument.
* Conditional compilation features (`log`, `unstable-env-commands`) are
  explicit boolean parameters.
-/

namespace RustLibretro

/-- A C pointer, modelled as a bare address; address 0 is the null pointer. -/
structure CPtr where
  addr : Nat
  deriving Repr, DecidableEq

/-- Returns `true` iff the pointer is the null pointer (`<ptr>.is_null()` in Rust). -/
def CPtr.isNull (p : CPtr) : Bool := p.addr == 0

/-- The `SystemInfo` structure returned by `Core::get_info` (embedding of
`rust_libretro::types::SystemInfo`); the C strings are modelled as `String`. -/
structure SystemInfo where
  library_name : String
  library_version : String
  valid_extensions : String
  need_fullpath : Bool
  block_extract : Bool
  deriving Repr, DecidableEq

/-- The fields `retro_get_system_info` writes into the host-provided
`retro_system_info` structure. The three pointer fields are modelled by the
string values they point at. -/
structure SystemInfoOut where
  library_name : String
  library_version : String
  valid_extensions : String
  need_fullpath : Bool
  block_extract : Bool
  deriving Repr, DecidableEq

/-- The game description passed to `retro_load_game`
(`rust_libretro_sys::retro_game_info`); a null `*const retro_game_info` is
modelled as `none` at the call site. -/
structure GameInfo where
  path : String
  size : Nat
  deriving Repr, DecidableEq

/-- Observable invocations performed by a dispatch entry point, in order:
hooks of the user `Core`, host-supplied callbacks, and one-time setup steps. -/
inductive Event where
  /-- Means `init_log` ran (feature `log`, first `retro_set_environment` call). -/
  | initLog
  /-- bitmask-input negotiation ran (feature `unstable-env-commands`). -/
  | getInputBitmasks
  /-- Means `Core::set_core_options` was invoked. -/
  | setCoreOptions
  /-- Means `Core::on_set_environment(initial, ctx)` was invoked. -/
  | coreOnSetEnvironment (initial : Bool)
  /-- Means `Core::on_options_changed` was invoked. -/
  | coreOnOptionsChanged
  /-- the registered host input-poll callback was invoked. -/
  | hostInputPoll
  /-- Means `Core::on_run(ctx, delta)` was invoked with the given frame delta. -/
  | coreOnRun (delta : Option Int)
  /-- Means `Core::on_load_game(game, ctx)` was invoked. -/
  | coreOnLoadGame (game : Option GameInfo)
  /-- Means `Core::on_load_game_special` was invoked. -/
  | coreOnLoadGameSpecial (game_type : Nat) (num_info : Nat)
  /-- Means `Core::on_serialize(slice, ctx)` was invoked on a buffer of this size. -/
  | coreOnSerialize (size : Nat)
  /-- Means `Core::on_unserialize(slice, ctx)` was invoked on a buffer of this size. -/
  | coreOnUnserialize (size : Nat)
  /-- Means `Core::on_cheat_set(index, enabled, code, ctx)` was invoked. -/
  | coreOnCheatSet (index : Nat) (enabled : Bool)
  /-- Means `Core::on_init` was invoked. -/
  | coreOnInit
  /-- Means `Core::get_info` was invoked. -/
  | coreGetInfo
  /-- a generic forwarded `Core` hook (named by its entry point) was invoked. -/
  | coreHook (entry : String)
  deriving Repr, DecidableEq

/-- The opaque user-supplied `Core`. One field per hook the dispatch layer in
`lib.rs` calls; hooks that return a value are result fields, hooks returning
`()` are implicit (their invocation is recorded as an `Event` only). -/
structure Core where
  /-- result of `Core::get_info`. -/
  get_info : SystemInfo
  /-- result of `Core::set_core_options`. -/
  set_core_options_result : Bool
  /-- result of `Core::on_load_game` as a function of the received game. -/
  on_load_game_result : Option GameInfo → Bool
  /-- result of `Core::on_load_game_special`. -/
  on_load_game_special_result : Bool
  /-- result of `Core::on_serialize` as a function of the buffer size. -/
  on_serialize_result : Nat → Bool
  /-- result of `Core::on_unserialize` as a function of the buffer size. -/
  on_unserialize_result : Nat → Bool
  /-- result of `Core::get_serialize_size`. -/
  get_serialize_size_result : Nat
  /-- result of `Core::on_get_region`. -/
  on_get_region_result : Nat

/-- The `CoreWrapper` stored in `RETRO_INSTANCE`: the registered `Core` plus
its negotiated capabilities and callback slots, as used by `lib.rs`. -/
structure CoreWrapper where
  core : Core
  environment_callback : Option CPtr
  environment_set : Bool
  audio_sample_callback : Option CPtr
  audio_sample_batch_callback : Option CPtr
  input_poll_callback : Option CPtr
  input_state_callback : Option CPtr
  video_refresh_callback : Option CPtr
  can_dupe : Bool
  supports_bitmasks : Bool
  had_frame : Bool
  last_width : Nat
  last_height : Nat
  last_pitch : Nat
  frame_delta : Option Int

/-- Modelled from the spec: `CoreWrapper::new` lives in `core_wrapper.rs`,
which is absent from `src/`; the spec states the registration postcondition
"slot holds the given Core with all negotiated flags and callbacks at their
default/unset state". -/
def CoreWrapper.new (core : Core) : CoreWrapper where
  core := core
  environment_callback := none
  environment_set := false
  audio_sample_callback := none
  audio_sample_batch_callback := none
  input_poll_callback := none
  input_state_callback := none
  video_refresh_callback := none
  can_dupe := false
  supports_bitmasks := false
  had_frame := false
  last_width := 0
  last_height := 0
  last_pitch := 0
  frame_delta := none

/-- The global mutable state of the module: the `RETRO_INSTANCE` static and
the `SYS_INFO` static local to `retro_get_system_info`. -/
structure LibState where
  retro_instance : Option CoreWrapper
  sys_info : Option SystemInfo

/-- The state at module load: no `Core` registered, no cached system info. -/
def LibState.empty : LibState := ⟨none, none⟩

/-- Result of a dispatch entry point: either a panic with its message, or the
returned value, the new global state, and the ordered list of observable
invocations. -/
abbrev Dispatch (α : Type) := Except String (α × LibState × List Event)

/-- Embedding: `set_core` (lib.rs lines 145-158): registration of a `Core`. Panics when a
`Core` is already registered, naming the registered core's identity; otherwise
stores `CoreWrapper::new(core)` in the slot. -/
def set_core (core : Core) (s : LibState) : Except String LibState :=
  match s.retro_instance with
  | some w =>
      let info := w.core.get_info
      .error ("Attempted to set a core after the system was already initialized.\nAlready registered core: "
        ++ info.library_name ++ " " ++ info.library_version)
  | none => .ok { s with retro_instance := some (CoreWrapper.new core) }

/-- The suffix of every "not initialized" panic message produced by the
dispatch entry points. -/
def notInitMsg (entry : String) : String :=
  entry ++ ": Core has not been initialized yet!"

/-- Embedding of the `forward!` macro (lib.rs lines 96-111) for entry points
returning `()`: panic when no instance, otherwise invoke the named `Core`
hook. -/
def forwardEntry (entry : String) (s : LibState) : Dispatch Unit :=
  match s.retro_instance with
  | none => .error (notInitMsg entry)
  | some _ => .ok ((), s, [Event.coreHook entry])

/-- Embedding: `retro_cheat_reset`, generated by `forward!`. -/
def retro_cheat_reset (s : LibState) : Dispatch Unit :=
  forwardEntry "retro_cheat_reset" s

/-- Embedding: `retro_deinit`, generated by `forward!`. -/
def retro_deinit (s : LibState) : Dispatch Unit :=
  forwardEntry "retro_deinit" s

/-- Embedding: `retro_reset`, generated by `forward!`. -/
def retro_reset (s : LibState) : Dispatch Unit :=
  forwardEntry "retro_reset" s

/-- Embedding: `retro_unload_game`, generated by `forward!`. -/
def retro_unload_game (s : LibState) : Dispatch Unit :=
  forwardEntry "retro_unload_game" s

/-- Embedding: `retro_get_region`, generated by `forward!` with a `c_uint` return. -/
def retro_get_region (s : LibState) : Dispatch Nat :=
  match s.retro_instance with
  | none => .error (notInitMsg "retro_get_region")
  | some w => .ok (w.core.on_get_region_result, s, [Event.coreHook "retro_get_region"])

/-- Embedding: `retro_serialize_size`, generated by `forward!` with a `size_t` return. -/
def retro_serialize_size (s : LibState) : Dispatch Nat :=
  match s.retro_instance with
  | none => .error (notInitMsg "retro_serialize_size")
  | some w => .ok (w.core.get_serialize_size_result, s, [Event.coreHook "retro_serialize_size"])

/-- Embedding of the `callback!` macro (lib.rs lines 114-142): panic when no
instance; with an instance, a present-but-null function pointer panics, and
otherwise the wrapper handler `upd` records the argument. The wrapper
handlers (`on_set_audio_sample`, ...) live in `core_wrapper.rs`, absent from
`src/`; per the spec they record the callback in the instance slot, which is
what `upd` does at each instantiation below. -/
def callbackSetter (entry argTypeName : String)
    (upd : CoreWrapper → Option CPtr → CoreWrapper)
    (arg1 : Option CPtr) (s : LibState) : Dispatch Unit :=
  match s.retro_instance with
  | none => .error (notInitMsg entry)
  | some w =>
    match arg1 with
    | some p =>
        if p.isNull then
          .error ("Expected " ++ argTypeName ++ " got NULL pointer instead!")
        else
          .ok ((), { s with retro_instance := some (upd w (some p)) }, [])
    | none => .ok ((), { s with retro_instance := some (upd w none) }, [])

/-- Embedding: `retro_set_audio_sample`, generated by `callback!`. -/
def retro_set_audio_sample (arg1 : Option CPtr) (s : LibState) : Dispatch Unit :=
  callbackSetter "retro_set_audio_sample" "retro_audio_sample_t"
    (fun w a => { w with audio_sample_callback := a }) arg1 s

/-- Embedding: `retro_set_audio_sample_batch`, generated by `callback!`. -/
def retro_set_audio_sample_batch (arg1 : Option CPtr) (s : LibState) : Dispatch Unit :=
  callbackSetter "retro_set_audio_sample_batch" "retro_audio_sample_batch_t"
    (fun w a => { w with audio_sample_batch_callback := a }) arg1 s

/-- Embedding: `retro_set_input_poll`, generated by `callback!`. -/
def retro_set_input_poll (arg1 : Option CPtr) (s : LibState) : Dispatch Unit :=
  callbackSetter "retro_set_input_poll" "retro_input_poll_t"
    (fun w a => { w with input_poll_callback := a }) arg1 s

/-- Embedding: `retro_set_input_state`, generated by `callback!`. -/
def retro_set_input_state (arg1 : Option CPtr) (s : LibState) : Dispatch Unit :=
  callbackSetter "retro_set_input_state" "retro_input_state_t"
    (fun w a => { w with input_state_callback := a }) arg1 s

/-- Embedding: `retro_set_video_refresh`, generated by `callback!`. -/
def retro_set_video_refresh (arg1 : Option CPtr) (s : LibState) : Dispatch Unit :=
  callbackSetter "retro_set_video_refresh" "retro_video_refresh_t"
    (fun w a => { w with video_refresh_callback := a }) arg1 s

/-- Embedding: `retro_init` (lib.rs lines 278-288). `hostCanDupe` is what
`environment::can_dupe` (module absent from `src/`) reports. -/
def retro_init (hostCanDupe : Bool) (s : LibState) : Dispatch Unit :=
  match s.retro_instance with
  | none => .error (notInitMsg "retro_init")
  | some w =>
      .ok ((), { s with retro_instance := some { w with can_dupe := hostCanDupe } },
        [Event.coreOnInit])

/-- The field-by-field copy `retro_get_system_info` performs into the
host-provided structure from the cached `SystemInfo`. -/
def sysOut (si : SystemInfo) : SystemInfoOut :=
  ⟨si.library_name, si.library_version, si.valid_extensions,
    si.need_fullpath, si.block_extract⟩

/-- Embedding: `retro_get_system_info` (lib.rs lines 294-331). `C` is the plugin's core,
so that `__retro_init_core()` (generated by the `retro_core!` macro) is
`set_core C`. `infoNull` says whether the host passed a null `info` pointer.
On a cache miss of the `SYS_INFO` static it self-registers via
`__retro_init_core`, caches `wrapper.core.get_info()`, and in every successful
call copies the cached fields into the host structure. -/
def retro_get_system_info (C : Core) (infoNull : Bool) (s : LibState) :
    Dispatch SystemInfoOut :=
  if infoNull then
    .error "Expected retro_system_info, got NULL pointer instead!"
  else
    match s.sys_info with
    | some si => .ok (sysOut si, s, [])
    | none =>
      match set_core C s with
      | .error m => .error m
      | .ok s1 =>
        match s1.retro_instance with
        | some w =>
            let si := w.core.get_info
            .ok (sysOut si, { s1 with sys_info := some si }, [Event.coreGetInfo])
        | none => .error "No core instance found!"

/-- Embedding: `retro_set_environment` (lib.rs lines 366-400). `logEnabled` and
`bitmaskEnabled` are the `log` and `unstable-env-commands` compilation
features; `hostBitmasks` is what `environment::get_input_bitmasks` (module
absent from `src/`) reports. Note: when no `Core` is registered this entry
point falls through and returns normally — it has no panic branch. -/
def retro_set_environment (logEnabled bitmaskEnabled hostBitmasks : Bool)
    (environment : Option CPtr) (s : LibState) : Dispatch Unit :=
  match s.retro_instance with
  | none => .ok ((), s, [])
  | some w =>
    match environment with
    | some cb =>
        let initial := !w.environment_set
        let w1 :=
          if initial then
            { w with environment_set := true,
                     supports_bitmasks :=
                       if bitmaskEnabled then hostBitmasks else w.supports_bitmasks }
          else w
        let setupEvents :=
          if initial then
            (if logEnabled then [Event.initLog] else [])
              ++ (if bitmaskEnabled then [Event.getInputBitmasks] else [])
          else []
        let w2 := { w1 with environment_callback := some cb }
        let optionEvents := if initial then [Event.setCoreOptions] else []
        .ok ((), { s with retro_instance := some w2 },
          setupEvents ++ optionEvents ++ [Event.coreOnSetEnvironment initial])
    | none =>
        .ok ((), { s with retro_instance := some { w with environment_callback := none } },
          [Event.coreOnSetEnvironment false])

/-- Embedding: `retro_run` (lib.rs lines 421-455). `variableUpdate` is what
`environment::get_variable_update` (module absent from `src/`) reports: the
host's "a variable/option changed" signal. The pending `frame_delta` is
`take()`n: handed to `on_run` and cleared. -/
def retro_run (variableUpdate : Bool) (s : LibState) : Dispatch Unit :=
  match s.retro_instance with
  | none => .error (notInitMsg "retro_run")
  | some w =>
      let optionEvents := if variableUpdate then [Event.coreOnOptionsChanged] else []
      let pollEvents := if w.input_poll_callback.isSome then [Event.hostInputPoll] else []
      .ok ((), { s with retro_instance := some { w with frame_delta := none } },
        optionEvents ++ pollEvents ++ [Event.coreOnRun w.frame_delta])

/-- Embedding: `retro_serialize` (lib.rs lines 462-480): a null data pointer returns
`false` (with only a logged warning); otherwise the `Core`'s `on_serialize`
is invoked on the host buffer. -/
def retro_serialize (data : CPtr) (size : Nat) (s : LibState) : Dispatch Bool :=
  if data.isNull then
    .ok (false, s, [])
  else
    match s.retro_instance with
    | none => .error (notInitMsg "retro_serialize")
    | some w => .ok (w.core.on_serialize_result size, s, [Event.coreOnSerialize size])

/-- Embedding: `retro_unserialize` (lib.rs lines 487-508): a null data pointer returns
`false`; otherwise the `Core`'s `on_unserialize` is invoked. -/
def retro_unserialize (data : CPtr) (size : Nat) (s : LibState) : Dispatch Bool :=
  if data.isNull then
    .ok (false, s, [])
  else
    match s.retro_instance with
    | none => .error (notInitMsg "retro_unserialize")
    | some w => .ok (w.core.on_unserialize_result size, s, [Event.coreOnUnserialize size])

/-- Embedding: `retro_cheat_set` (lib.rs lines 515-542): a null code pointer returns
silently; otherwise the `Core`'s `on_cheat_set` is invoked. -/
def retro_cheat_set (index : Nat) (enabled : Bool) (code : CPtr) (s : LibState) :
    Dispatch Unit :=
  if code.isNull then
    .ok ((), s, [])
  else
    match s.retro_instance with
    | none => .error (notInitMsg "retro_cheat_set")
    | some _ => .ok ((), s, [Event.coreOnCheatSet index enabled])

/-- Embedding: `retro_load_game` (lib.rs lines 548-574): fires `on_options_changed`, then
hands the `Core`'s `on_load_game` hook `None` for a null game pointer and
`Some(*game)` otherwise, returning the hook's boolean unchanged. -/
def retro_load_game (game : Option GameInfo) (s : LibState) : Dispatch Bool :=
  match s.retro_instance with
  | none => .error (notInitMsg "retro_load_game")
  | some w =>
      .ok (w.core.on_load_game_result game, s,
        [Event.coreOnOptionsChanged, Event.coreOnLoadGame game])

/-- Embedding: `retro_load_game_special` (lib.rs lines 578-605): a null info pointer
returns `false`; otherwise fires `on_options_changed` then
`on_load_game_special`. -/
def retro_load_game_special (game_type : Nat) (info : CPtr) (num_info : Nat)
    (s : LibState) : Dispatch Bool :=
  if info.isNull then
    .ok (false, s, [])
  else
    match s.retro_instance with
    | none => .error (notInitMsg "retro_load_game_special")
    | some w =>
        .ok (w.core.on_load_game_special_result, s,
          [Event.coreOnOptionsChanged, Event.coreOnLoadGameSpecial game_type num_info])

/-- Embedding: `retro_frame_time_callback_fn` (lib.rs lines 775-779): stores the pending
frame delta in the instance slot; silently does nothing when no instance. -/
def retro_frame_time_callback_fn (usec : Int) (s : LibState) : LibState :=
  match s.retro_instance with
  | none => s
  | some w => { s with retro_instance := some { w with frame_delta := some usec } }

/-- The event list emitted by a successful `retro_run` on wrapper `w` when the
host reports `variableUpdate`: `on_options_changed` if the host reported an
update, then the input poll if registered, then the run hook with the pending
frame delta. -/
def runEvents (variableUpdate : Bool) (w : CoreWrapper) : List Event :=
  (if variableUpdate then [Event.coreOnOptionsChanged] else []) ++
    (if w.input_poll_callback.isSome then [Event.hostInputPoll] else []) ++
      [Event.coreOnRun w.frame_delta]

/-- A concrete sample `Core`, mirroring `ExampleCore` from the crate's doc
example, used by the witness theorems. -/
def sampleCore : Core where
  get_info := ⟨"ExampleCore", "1.0.0", "", false, false⟩
  set_core_options_result := true
  on_load_game_result := fun g => g.isSome
  on_load_game_special_result := true
  on_serialize_result := fun _ => true
  on_unserialize_result := fun _ => true
  get_serialize_size_result := 0
  on_get_region_result := 1

/-- A concrete state whose instance slot holds the freshly registered sample
core, used by the witness theorems. -/
def sampleState : LibState := ⟨some (CoreWrapper.new sampleCore), none⟩

/-! ## Claims -/

/-- C2: calling `set_core` while a `Core` is already registered panics, the
panic message being the fixed text followed by the registered core's
`get_info` library name and version; registration never replaces an existing
`Core` (no successful result exists in that case). -/
theorem set_core_double_registration (core : Core) (s : LibState) (w : CoreWrapper)
    (h : s.retro_instance = some w) :
    set_core core s =
      .error ("Attempted to set a core after the system was already initialized.\nAlready registered core: "
        ++ w.core.get_info.library_name ++ " " ++ w.core.get_info.library_version) ∧
    ∀ s1, set_core core s ≠ .ok s1 := by
  obtain ⟨inst, sy⟩ := s
  change inst = some w at h
  subst h
  exact ⟨rfl, fun s1 hk => by simp [set_core] at hk⟩

/-- Witness for C2 at a concrete state: the sample core is already registered,
so a second registration fails with a message naming it. -/
theorem set_core_double_registration_witness :
    set_core sampleCore sampleState =
      .error "Attempted to set a core after the system was already initialized.\nAlready registered core: ExampleCore 1.0.0" ∧
    ∀ s1, set_core sampleCore sampleState ≠ .ok s1 := by
  have h := set_core_double_registration sampleCore sampleState
    (CoreWrapper.new sampleCore) rfl
  exact ⟨h.1.trans (by rfl), h.2⟩

/-- C8: `retro_serialize` and `retro_unserialize` with a null data pointer
return `false`, leave the state unchanged, and invoke no `Core` method (their
event list is empty). -/
theorem serialize_null_pointer_returns_false (size : Nat) (s : LibState) :
    retro_serialize ⟨0⟩ size s = .ok (false, s, []) ∧
    retro_unserialize ⟨0⟩ size s = .ok (false, s, []) :=
  ⟨rfl, rfl⟩

/-- C10: in `retro_serialize`, `retro_unserialize`, `retro_cheat_set` and
`retro_load_game_special` the null check precedes the instance-slot check:
with a null pointer and no registered `Core`, each returns the conservative
default (`false`, or a silent return for `retro_cheat_set`) instead of
panicking. -/
theorem null_check_precedes_instance_check (size idx gt ni : Nat) (enabled : Bool)
    (sy : Option SystemInfo) :
    retro_serialize ⟨0⟩ size ⟨none, sy⟩ = .ok (false, ⟨none, sy⟩, []) ∧
    retro_unserialize ⟨0⟩ size ⟨none, sy⟩ = .ok (false, ⟨none, sy⟩, []) ∧
    retro_cheat_set idx enabled ⟨0⟩ ⟨none, sy⟩ = .ok ((), ⟨none, sy⟩, []) ∧
    retro_load_game_special gt ⟨0⟩ ni ⟨none, sy⟩ = .ok (false, ⟨none, sy⟩, []) :=
  ⟨rfl, rfl, rfl, rfl⟩

/-- C1 counterexample: `retro_set_environment`, invoked while no `Core` is
registered, does not panic — it returns normally with the state unchanged —
contradicting the claim that every listed entry point terminates fatally in
that situation. -/
theorem retro_set_environment_uninitialized_no_panic :
    retro_set_environment true true true (some ⟨1⟩) LibState.empty =
      .ok ((), LibState.empty, []) := rfl

/-- C1 (amended): with no `Core` registered, every listed dispatch entry point
except `retro_set_environment` panics with a message naming that entry point;
`retro_set_environment` instead returns silently, leaving the state unchanged
and invoking nothing. -/
theorem uninitialized_entry_points_panic (s : LibState) (h : s.retro_instance = none)
    (hostCanDupe variableUpdate logE bmE hostBm : Bool) (game : Option GameInfo)
    (arg : Option CPtr) :
    retro_init hostCanDupe s = .error (notInitMsg "retro_init") ∧
    retro_run variableUpdate s = .error (notInitMsg "retro_run") ∧
    retro_load_game game s = .error (notInitMsg "retro_load_game") ∧
    retro_set_audio_sample arg s = .error (notInitMsg "retro_set_audio_sample") ∧
    retro_set_audio_sample_batch arg s = .error (notInitMsg "retro_set_audio_sample_batch") ∧
    retro_set_input_poll arg s = .error (notInitMsg "retro_set_input_poll") ∧
    retro_set_input_state arg s = .error (notInitMsg "retro_set_input_state") ∧
    retro_set_video_refresh arg s = .error (notInitMsg "retro_set_video_refresh") ∧
    retro_reset s = .error (notInitMsg "retro_reset") ∧
    retro_deinit s = .error (notInitMsg "retro_deinit") ∧
    retro_cheat_reset s = .error (notInitMsg "retro_cheat_reset") ∧
    retro_unload_game s = .error (notInitMsg "retro_unload_game") ∧
    retro_get_region s = .error (notInitMsg "retro_get_region") ∧
    retro_serialize_size s = .error (notInitMsg "retro_serialize_size") ∧
    retro_set_environment logE bmE hostBm arg s = .ok ((), s, []) := by
  obtain ⟨inst, sy⟩ := s
  change inst = none at h
  subst h
  refine ⟨rfl, rfl, rfl, ?_, ?_, ?_, ?_, ?_, rfl, rfl, rfl, rfl, rfl, rfl, ?_⟩
  · cases arg with
    | none => rfl
    | some p => simp [retro_set_audio_sample, callbackSetter]
  · cases arg with
    | none => rfl
    | some p => simp [retro_set_audio_sample_batch, callbackSetter]
  · cases arg with
    | none => rfl
    | some p => simp [retro_set_input_poll, callbackSetter]
  · cases arg with
    | none => rfl
    | some p => simp [retro_set_input_state, callbackSetter]
  · cases arg with
    | none => rfl
    | some p => simp [retro_set_video_refresh, callbackSetter]
  · cases arg with
    | none => rfl
    | some p => rfl

/-- Witness for C1 (amended) at the module-load state. -/
theorem uninitialized_entry_points_panic_witness :
    LibState.empty.retro_instance = none ∧
    retro_init true LibState.empty = .error (notInitMsg "retro_init") ∧
    retro_set_environment true true true none LibState.empty =
      .ok ((), LibState.empty, []) := by
  have h := uninitialized_entry_points_panic LibState.empty rfl
    true true true true true none none
  exact ⟨rfl, h.1, h.2.2.2.2.2.2.2.2.2.2.2.2.2.2⟩

/-- C3: `retro_get_system_info` with a non-null info pointer succeeds even
with no prior registration: from the module-load state the first call
self-registers (the slot goes from `none` to the freshly registered core,
calling `get_info` once) and caches the system info; and on any state where
the cache is populated — in particular the state every earlier call leaves
behind — the call writes the same cached values, changes nothing, and invokes
no `Core` method (so registration happens at most once across any sequence of
calls). -/
theorem retro_get_system_info_lazy_registration (C : Core) (inst : Option CoreWrapper)
    (si : SystemInfo) :
    retro_get_system_info C false LibState.empty =
      .ok (sysOut C.get_info,
        ⟨some (CoreWrapper.new C), some C.get_info⟩, [Event.coreGetInfo]) ∧
    retro_get_system_info C false ⟨inst, some si⟩ =
      .ok (sysOut si, ⟨inst, some si⟩, []) :=
  ⟨rfl, rfl⟩

/-- C5: `retro_run` with a registered `Core` emits exactly
`runEvents variableUpdate w`; in that list the options-changed notification
occurs exactly once when the host reports a variable update and never
otherwise, the host input poll occurs exactly once when a poll callback is
registered and never otherwise, and the run hook is the last event — so both
happen (when they happen) before the run hook and never after it. -/
theorem retro_run_event_order (variableUpdate : Bool) (s : LibState) (w : CoreWrapper)
    (h : s.retro_instance = some w) :
    retro_run variableUpdate s =
      .ok ((), { s with retro_instance := some { w with frame_delta := none } },
        runEvents variableUpdate w) ∧
    (runEvents variableUpdate w).count Event.coreOnOptionsChanged
      = (if variableUpdate then 1 else 0) ∧
    (runEvents variableUpdate w).count Event.hostInputPoll
      = (if w.input_poll_callback.isSome then 1 else 0) ∧
    (runEvents variableUpdate w).getLast? = some (Event.coreOnRun w.frame_delta) := by
  obtain ⟨inst, sy⟩ := s
  change inst = some w at h
  subst h
  refine ⟨rfl, ?_, ?_, ?_⟩ <;>
    cases variableUpdate <;> cases hp : w.input_poll_callback <;>
      simp [runEvents, hp, List.count_cons]

/-- Witness for C5: a concrete run with a poll callback registered and a
variable update reported. -/
theorem retro_run_event_order_witness :
    retro_run true ⟨some { CoreWrapper.new sampleCore with input_poll_callback := some ⟨3⟩ }, none⟩ =
      .ok ((), ⟨some { CoreWrapper.new sampleCore with input_poll_callback := some ⟨3⟩ }, none⟩,
        [Event.coreOnOptionsChanged, Event.hostInputPoll, Event.coreOnRun none]) := by
  have h := retro_run_event_order true
    ⟨some { CoreWrapper.new sampleCore with input_poll_callback := some ⟨3⟩ }, none⟩
    { CoreWrapper.new sampleCore with input_poll_callback := some ⟨3⟩ } rfl
  simpa [runEvents, CoreWrapper.new] using h.1

/-- C6: each of the five I/O callback setters, with a `Core` registered,
panics on a present-but-null function pointer, clears the corresponding slot
on an absent value, and records a present non-null pointer in the slot. -/
theorem callback_setters_spec (s : LibState) (w : CoreWrapper)
    (h : s.retro_instance = some w) (p : CPtr) (hp : p.addr ≠ 0) :
    (retro_set_audio_sample (some ⟨0⟩) s =
      .error "Expected retro_audio_sample_t got NULL pointer instead!") ∧
    (retro_set_audio_sample_batch (some ⟨0⟩) s =
      .error "Expected retro_audio_sample_batch_t got NULL pointer instead!") ∧
    (retro_set_input_poll (some ⟨0⟩) s =
      .error "Expected retro_input_poll_t got NULL pointer instead!") ∧
    (retro_set_input_state (some ⟨0⟩) s =
      .error "Expected retro_input_state_t got NULL pointer instead!") ∧
    (retro_set_video_refresh (some ⟨0⟩) s =
      .error "Expected retro_video_refresh_t got NULL pointer instead!") ∧
    (retro_set_audio_sample none s =
      .ok ((), { s with retro_instance := some { w with audio_sample_callback := none } }, [])) ∧
    (retro_set_audio_sample_batch none s =
      .ok ((), { s with retro_instance := some { w with audio_sample_batch_callback := none } }, [])) ∧
    (retro_set_input_poll none s =
      .ok ((), { s with retro_instance := some { w with input_poll_callback := none } }, [])) ∧
    (retro_set_input_state none s =
      .ok ((), { s with retro_instance := some { w with input_state_callback := none } }, [])) ∧
    (retro_set_video_refresh none s =
      .ok ((), { s with retro_instance := some { w with video_refresh_callback := none } }, [])) ∧
    (retro_set_audio_sample (some p) s =
      .ok ((), { s with retro_instance := some { w with audio_sample_callback := some p } }, [])) ∧
    (retro_set_audio_sample_batch (some p) s =
      .ok ((), { s with retro_instance := some { w with audio_sample_batch_callback := some p } }, [])) ∧
    (retro_set_input_poll (some p) s =
      .ok ((), { s with retro_instance := some { w with input_poll_callback := some p } }, [])) ∧
    (retro_set_input_state (some p) s =
      .ok ((), { s with retro_instance := some { w with input_state_callback := some p } }, [])) ∧
    (retro_set_video_refresh (some p) s =
      .ok ((), { s with retro_instance := some { w with video_refresh_callback := some p } }, [])) := by
  obtain ⟨inst, sy⟩ := s
  change inst = some w at h
  subst h
  refine ⟨rfl, rfl, rfl, rfl, rfl, rfl, rfl, rfl, rfl, rfl, ?_, ?_, ?_, ?_, ?_⟩ <;>
    simp [retro_set_audio_sample, retro_set_audio_sample_batch, retro_set_input_poll,
      retro_set_input_state, retro_set_video_refresh, callbackSetter, CPtr.isNull, hp]

/-- Witness for C6 at a concrete registered state with pointer address 7. -/
theorem callback_setters_spec_witness :
    (retro_set_input_poll (some ⟨0⟩) sampleState =
      .error "Expected retro_input_poll_t got NULL pointer instead!") ∧
    (retro_set_input_poll none sampleState =
      .ok ((), ⟨some { CoreWrapper.new sampleCore with input_poll_callback := none }, none⟩, [])) ∧
    (retro_set_input_poll (some ⟨7⟩) sampleState =
      .ok ((), ⟨some { CoreWrapper.new sampleCore with input_poll_callback := some ⟨7⟩ }, none⟩, [])) := by
  have h := callback_setters_spec sampleState (CoreWrapper.new sampleCore) rfl ⟨7⟩ (by decide)
  exact ⟨h.2.2.1, h.2.2.2.2.2.2.2.1, h.2.2.2.2.2.2.2.2.2.2.2.2.1⟩

/-- C7: `retro_load_game` with a registered `Core` fires the options-changed
notification immediately before the load hook; the hook receives `none` for
a null game pointer and `some game` otherwise (two distinguishable calls),
and the entry point returns exactly the hook's boolean. -/
theorem retro_load_game_spec (s : LibState) (w : CoreWrapper)
    (h : s.retro_instance = some w) (game : Option GameInfo) :
    retro_load_game game s =
      .ok (w.core.on_load_game_result game, s,
        [Event.coreOnOptionsChanged, Event.coreOnLoadGame game]) ∧
    ∀ g : GameInfo, Event.coreOnLoadGame (some g) ≠ Event.coreOnLoadGame none := by
  obtain ⟨inst, sy⟩ := s
  change inst = some w at h
  subst h
  exact ⟨rfl, fun g hg => by simp at hg⟩

/-- Witness for C7: loading a null game on the sample core returns the
hook's result for `none` (here `false`) after the options-changed event. -/
theorem retro_load_game_spec_witness :
    retro_load_game none sampleState =
      .ok (false, sampleState,
        [Event.coreOnOptionsChanged, Event.coreOnLoadGame none]) := by
  have h := (retro_load_game_spec sampleState (CoreWrapper.new sampleCore) rfl none).1
  simpa [sampleState, CoreWrapper.new, sampleCore] using h

/-- C4: `retro_set_environment` with a registered `Core`. On the first
non-null call (`environment_set` still false) the one-time setup runs — the
log initialization and bitmask negotiation when their features are enabled,
then `set_core_options` before `on_set_environment`, which receives
`initial = true` — the callback is stored and `environment_set` is latched
to true, so no later call can rerun the setup. On any non-null call with
`environment_set` already true only `on_set_environment false` fires and the
callback is replaced; a null call clears the callback, leaves
`environment_set` untouched, and fires only `on_set_environment false`. -/
theorem retro_set_environment_first_call_setup (logE bmE hostBm : Bool) (s : LibState)
    (w : CoreWrapper) (h : s.retro_instance = some w) (cb : CPtr) :
    (w.environment_set = false →
      retro_set_environment logE bmE hostBm (some cb) s =
        .ok ((), { s with retro_instance := some ({ w with
                     environment_set := true,
                     supports_bitmasks := if bmE then hostBm else w.supports_bitmasks,
                     environment_callback := some cb }) },
          ((if logE then [Event.initLog] else []) ++
              (if bmE then [Event.getInputBitmasks] else [])) ++
            [Event.setCoreOptions, Event.coreOnSetEnvironment true])) ∧
    (w.environment_set = true →
      retro_set_environment logE bmE hostBm (some cb) s =
        .ok ((), { s with retro_instance := some { w with environment_callback := some cb } },
          [Event.coreOnSetEnvironment false])) ∧
    retro_set_environment logE bmE hostBm none s =
      .ok ((), { s with retro_instance := some { w with environment_callback := none } },
        [Event.coreOnSetEnvironment false]) := by
  obtain ⟨inst, sy⟩ := s
  change inst = some w at h
  subst h
  obtain ⟨core, ecb, eset, a1, a2, a3, a4, a5, b1, b2, b3, n1, n2, n3, fd⟩ := w
  refine ⟨fun hset => ?_, fun hset => ?_, rfl⟩ <;>
    simp only at hset <;> subst hset <;>
      simp [retro_set_environment, List.append_assoc]

/-- Witness for C4: a first non-null call on the freshly registered sample
core (both features enabled, host granting bitmasks), followed by checking
the second-call and null-call behavior on the resulting state. -/
theorem retro_set_environment_first_call_setup_witness :
    retro_set_environment true true true (some ⟨5⟩) sampleState =
      .ok ((), ⟨some { CoreWrapper.new sampleCore with
              environment_set := true,
              supports_bitmasks := true,
              environment_callback := some ⟨5⟩ }, none⟩,
        [Event.initLog, Event.getInputBitmasks, Event.setCoreOptions,
          Event.coreOnSetEnvironment true]) ∧
    retro_set_environment true true true (some ⟨6⟩)
        ⟨some { CoreWrapper.new sampleCore with
            environment_set := true,
            supports_bitmasks := true,
            environment_callback := some ⟨5⟩ }, none⟩ =
      .ok ((), ⟨some { CoreWrapper.new sampleCore with
              environment_set := true,
              supports_bitmasks := true,
              environment_callback := some ⟨6⟩ }, none⟩,
        [Event.coreOnSetEnvironment false]) ∧
    retro_set_environment true true true none
        ⟨some { CoreWrapper.new sampleCore with
            environment_set := true,
            supports_bitmasks := true,
            environment_callback := some ⟨6⟩ }, none⟩ =
      .ok ((), ⟨some { CoreWrapper.new sampleCore with
              environment_set := true,
              supports_bitmasks := true,
              environment_callback := none }, none⟩,
        [Event.coreOnSetEnvironment false]) := by
  refine ⟨?_, ?_, ?_⟩
  · have h := (retro_set_environment_first_call_setup true true true sampleState
      (CoreWrapper.new sampleCore) rfl ⟨5⟩).1 rfl
    simpa using h
  · have h := (retro_set_environment_first_call_setup true true true
      ⟨some { CoreWrapper.new sampleCore with
          environment_set := true,
          supports_bitmasks := true,
          environment_callback := some ⟨5⟩ }, none⟩
      { CoreWrapper.new sampleCore with
          environment_set := true,
          supports_bitmasks := true,
          environment_callback := some ⟨5⟩ } rfl ⟨6⟩).2.1 rfl
    simpa using h
  · have h := (retro_set_environment_first_call_setup true true true
      ⟨some { CoreWrapper.new sampleCore with
          environment_set := true,
          supports_bitmasks := true,
          environment_callback := some ⟨6⟩ }, none⟩
      { CoreWrapper.new sampleCore with
          environment_set := true,
          supports_bitmasks := true,
          environment_callback := some ⟨6⟩ } rfl ⟨7⟩).2.2
    simpa using h

/-- C9: the frame-time delta is one-shot. After the host's frame-time side
callback stores a delta, the next `retro_run` hands exactly that delta
(`some usec`) to the run hook — the run hook is the last emitted event — and
clears the stored state; a further `retro_run` with no intervening frame-time
callback hands the run hook `none`. -/
theorem frame_delta_one_shot (s : LibState) (w : CoreWrapper)
    (h : s.retro_instance = some w) (usec : Int) (vu1 vu2 : Bool) :
    retro_run vu1 (retro_frame_time_callback_fn usec s) =
      .ok ((), { s with retro_instance := some { w with frame_delta := none } },
        runEvents vu1 { w with frame_delta := some usec }) ∧
    (runEvents vu1 { w with frame_delta := some usec }).getLast?
      = some (Event.coreOnRun (some usec)) ∧
    retro_run vu2 { s with retro_instance := some { w with frame_delta := none } } =
      .ok ((), { s with retro_instance := some { w with frame_delta := none } },
        runEvents vu2 { w with frame_delta := none }) ∧
    (runEvents vu2 { w with frame_delta := none }).getLast?
      = some (Event.coreOnRun none) := by
  obtain ⟨inst, sy⟩ := s
  change inst = some w at h
  subst h
  refine ⟨rfl, ?_, rfl, ?_⟩
  · cases vu1 <;> cases hp : w.input_poll_callback <;> simp [runEvents, hp]
  · cases vu2 <;> cases hp : w.input_poll_callback <;> simp [runEvents, hp]

/-- Witness for C9: a concrete frame-time callback followed by two runs on
the sample state. -/
theorem frame_delta_one_shot_witness :
    retro_run false (retro_frame_time_callback_fn 16666 sampleState) =
      .ok ((), sampleState, [Event.coreOnRun (some 16666)]) ∧
    retro_run false sampleState = .ok ((), sampleState, [Event.coreOnRun none]) := by
  have h := frame_delta_one_shot sampleState (CoreWrapper.new sampleCore) rfl 16666 false false
  constructor
  · have h1 := h.1
    simpa [runEvents, CoreWrapper.new, sampleState] using h1
  · have h2 := h.2.2.1
    simpa [runEvents, CoreWrapper.new, sampleState] using h2

end RustLibretro
